import Mathlib

deriving instance DecidableEq for Except

/-!
Shallow embedding of the ToDoList core (models, repositories, services)
from the Python sources, together with theorems checking the
natural-language specification against it.

Conventions of the embedding:
* Dates and timestamps are natural numbers (day numbers / instants);
  `today` and `now` are passed explicitly where the Python code calls
  `date.today()` / `datetime.now()`.
* A Python `Optional[X]` argument is `Option X`.
* A raised exception is an `Except.error` carrying an `Err` value.
  The Python exception classes (src/exceptions/base.py and
  src/exceptions/service_exceptions.py) form this hierarchy:
    Exception > ValueError
    Exception > ToDoError > ValidationError > InvalidDeadlineError
    Exception > ToDoError > {ProjectNotFoundError, TaskNotFoundError,
      ProjectNameExistsError, ProjectLimitExceededError, TaskLimitExceededError}
  Note that ValidationError does NOT derive from ValueError; this is
  essential for the semantics of the `except ValueError` handlers below.
* The SQLAlchemy session is a `Session` record holding both tables; an
  in-place mutation of a fetched ORM object is modelled by replacing the
  task/project with the same id in the table, because the session's
  identity map makes the mutated object the one every later lookup sees,
  whether or not the failed call was followed by a commit.
-/

namespace ToDoList

/-- Error values corresponding to the exception classes raised by the code.
Message strings are dropped; the constructor identifies the class. -/
inductive Err where
  | validationError
  | invalidDeadlineError
  | valueError
  | projectNotFoundError
  | taskNotFoundError
  | projectNameExistsError
  | projectLimitExceededError
  | taskLimitExceededError
  deriving DecidableEq, Repr

namespace Err

/-- Python `except ValueError` catches exactly `ValueError` (and its
subclasses; none of the project's exception classes derive from it). -/
def isValueError : Err → Bool
  | .valueError => true
  | _ => false

/-- Python `except ValidationError` catches `ValidationError` and its
subclass `InvalidDeadlineError`. -/
def isValidationError : Err → Bool
  | .validationError => true
  | .invalidDeadlineError => true
  | _ => false

/-- Whether the error is a `ProjectNotFoundError`. -/
def isProjectNotFound : Err → Bool
  | .projectNotFoundError => true
  | _ => false

end Err

/-- config.py: `MAX_NUMBER_OF_PROJECT` (default 50). -/
def MAX_NUMBER_OF_PROJECT : Nat := 50

/-- config.py: `MAX_NUMBER_OF_TASK` (default 500). -/
def MAX_NUMBER_OF_TASK : Nat := 500

/-- models/task.py: `VALID_STATUSES = ("todo", "doing", "done")`. -/
def VALID_STATUSES : List String := ["todo", "doing", "done"]

/-- A deadline argument as the Python code receives it: either a string
that `datetime.strptime(_, "%Y-%m-%d")` parses to a date `d`, or a
string that fails to parse (an already-`date` value behaves like a
successfully parsed string). -/
inductive DeadlineArg where
  | validStr (d : Nat)
  | malformed
  deriving DecidableEq, Repr

/-- models/task.py: the Task entity (columns used by the core logic). -/
structure Task where
  id : Nat
  project_id : Nat
  title : String
  description : String
  status : String
  deadline : Option Nat
  created_at : Nat
  closed_at : Option Nat
  deriving DecidableEq, Repr

/-- models/project.py: the Project entity. -/
structure Project where
  id : Nat
  name : String
  description : String
  created_at : Nat
  deriving DecidableEq, Repr

/-- Task._validate_title: the title must be non-empty after stripping
and at most 30 characters. `not title.strip()` holds exactly when every
character of the title is whitespace. -/
def validate_title (title : String) : Except Err Unit :=
  if title.data.all Char.isWhitespace then .error .validationError
  else if title.length > 30 then .error .validationError
  else .ok ()

/-- Task._validate_description / Project._validate_description: at most
150 characters (a `None` description is normalised to `""` before the
length check, which our `String`-typed field renders vacuous). -/
def validate_description (d : String) : Except Err Unit :=
  if d.length > 150 then .error .validationError
  else .ok ()

/-- Task._validate_status: membership in `VALID_STATUSES`. -/
def validate_status (s : String) : Except Err Unit :=
  if s ∈ VALID_STATUSES then .ok ()
  else .error .validationError

/-- Task._validate_deadline on an already-converted date: a deadline in
the past raises `InvalidDeadlineError`. -/
def validate_deadline (today : Nat) (deadline : Option Nat) : Except Err Unit :=
  match deadline with
  | none => .ok ()
  | some d => if d < today then .error .invalidDeadlineError else .ok ()

/-- Task._validate_deadline as run from `Task.__init__`: converts the
string argument (a parse failure raises `ValidationError`, message
"Deadline format must be YYYY-MM-DD."), then rejects past dates with
`InvalidDeadlineError`. Returns the converted date. -/
def parse_deadline_init (today : Nat) (deadline : Option DeadlineArg) :
    Except Err (Option Nat) :=
  match deadline with
  | none => .ok none
  | some .malformed => .error .validationError
  | some (.validStr d) =>
      if d < today then .error .invalidDeadlineError else .ok (some d)

namespace Task

/-- Task.__init__: sets the fields from the keyword arguments, then runs
`_validate_title`, `_validate_description`, `_validate_status`,
`_validate_deadline` in that order. `closed_at` is never assigned by the
constructor path used by `TaskRepository.create`, so it stays at its
column default `None`. -/
def init (today : Nat) (id project_id : Nat) (title description status : String)
    (deadline : Option DeadlineArg) (created_at : Nat) : Except Err Task := do
  let _ ← validate_title title
  let _ ← validate_description description
  let _ ← validate_status status
  let d ← parse_deadline_init today deadline
  .ok { id := id, project_id := project_id, title := title,
        description := description, status := status, deadline := d,
        created_at := created_at, closed_at := none }

/-- Task.change_status: rejects a status outside `VALID_STATUSES`
up front, then assigns it (the inner `_validate_status` cannot fail and
the `except ValueError` handler is unreachable) and does the `closed_at`
bookkeeping: moving to "done" sets `closed_at = now` if it was unset;
moving to a non-"done" status clears it. -/
def change_status (t : Task) (now : Nat) (new_status : String) : Except Err Task :=
  if new_status ∈ VALID_STATUSES then
    let t1 := { t with status := new_status }
    if new_status = "done" then
      if t1.closed_at = none then .ok { t1 with closed_at := some now } else .ok t1
    else .ok { t1 with closed_at := none }
  else .error .validationError

/-- Task.edit, title step: `self.title = title; self._validate_title()`.
The error carries the object state at the moment the exception is
raised. -/
def editTitleStep (t : Task) (title : Option String) : Except (Err × Task) Task :=
  match title with
  | none => .ok t
  | some s =>
      let t1 := { t with title := s }
      match validate_title t1.title with
      | .ok _ => .ok t1
      | .error e => .error (e, t1)

/-- Task.edit, description step. -/
def editDescriptionStep (t : Task) (description : Option String) :
    Except (Err × Task) Task :=
  match description with
  | none => .ok t
  | some s =>
      let t1 := { t with description := s }
      match validate_description t1.description with
      | .ok _ => .ok t1
      | .error e => .error (e, t1)

/-- Task.edit, status step: assign, validate, then the same `closed_at`
bookkeeping as `change_status`. -/
def editStatusStep (now : Nat) (t : Task) (status : Option String) :
    Except (Err × Task) Task :=
  match status with
  | none => .ok t
  | some s =>
      let t1 := { t with status := s }
      match validate_status t1.status with
      | .error e => .error (e, t1)
      | .ok _ =>
          if s = "done" then
            if t1.closed_at = none then .ok { t1 with closed_at := some now }
            else .ok t1
          else .ok { t1 with closed_at := none }

/-- Task.edit, deadline step: a malformed string raises a plain
`ValueError` before `self.deadline` is assigned; otherwise the date is
assigned and `_validate_deadline` runs. -/
def editDeadlineStep (today : Nat) (t : Task) (deadline : Option DeadlineArg) :
    Except (Err × Task) Task :=
  match deadline with
  | none => .ok t
  | some .malformed => .error (.valueError, t)
  | some (.validStr d) =>
      let t1 := { t with deadline := some d }
      match validate_deadline today t1.deadline with
      | .ok _ => .ok t1
      | .error e => .error (e, t1)

/-- Task.edit: runs the four steps in order inside a
`try ... except ValueError` block whose handler restores `title`,
`description`, `status` and `deadline` (but not `closed_at`) and
re-raises. An exception that is not a `ValueError` — in particular any
`ValidationError` or `InvalidDeadlineError` — is NOT caught, so the
partially mutated object is left as is. -/
def edit (t : Task) (today now : Nat)
    (title description status : Option String)
    (deadline : Option DeadlineArg) : Except (Err × Task) Task :=
  let body : Except (Err × Task) Task := do
    let t1 ← editTitleStep t title
    let t2 ← editDescriptionStep t1 description
    let t3 ← editStatusStep now t2 status
    editDeadlineStep today t3 deadline
  match body with
  | .ok t4 => .ok t4
  | .error (e, cur) =>
      if e.isValueError then
        .error (e, { cur with title := t.title, description := t.description,
                              status := t.status, deadline := t.deadline })
      else
        .error (e, cur)

end Task

/-- Project.__init__: set fields, then `_validate_name` and
`_validate_description` (name validation is shared with
`validate_title`: non-empty after stripping, at most 30 characters). -/
def Project.init (id : Nat) (name description : String) (created_at : Nat) :
    Except Err Project := do
  let _ ← validate_title name
  let _ ← validate_description description
  .ok { id := id, name := name, description := description, created_at := created_at }

/-- The SQLAlchemy session: both tables plus the autoincrement counters. -/
structure Session where
  projects : List Project
  tasks : List Task
  next_project_id : Nat
  next_task_id : Nat
  deriving DecidableEq, Repr

namespace Session

/-- Replace the project with the given id (in-place mutation of the ORM
object fetched from the identity map). -/
def setProject (s : Session) (p : Project) : Session :=
  { s with projects := s.projects.map (fun q => if q.id = p.id then p else q) }

/-- Replace the task with the given id. -/
def setTask (s : Session) (t : Task) : Session :=
  { s with tasks := s.tasks.map (fun u => if u.id = t.id then t else u) }

end Session

namespace ProjectRepository

/-- ProjectRepository.get_by_id (`session.get(Project, project_id)`). -/
def get_by_id (s : Session) (project_id : Nat) : Option Project :=
  s.projects.find? (fun p => p.id = project_id)

/-- ProjectRepository.get_by_name: first project with exactly that name. -/
def get_by_name (s : Session) (name : String) : Option Project :=
  s.projects.find? (fun p => p.name = name)

/-- ProjectRepository.get_project_count. -/
def get_project_count (s : Session) : Nat :=
  s.projects.length

/-- ProjectRepository.create: checks the project limit, then name
uniqueness, then constructs the Project (whose `__init__` validates) and
commits it. -/
def create (s : Session) (now : Nat) (name : String) (description : String) :
    Except Err (Project × Session) :=
  if get_project_count s ≥ MAX_NUMBER_OF_PROJECT then
    .error .projectLimitExceededError
  else
    match get_by_name s name with
    | some _ => .error .projectNameExistsError
    | none =>
        match Project.init s.next_project_id name description now with
        | .error e => .error e
        | .ok p =>
            .ok (p, { s with projects := s.projects ++ [p],
                             next_project_id := s.next_project_id + 1 })

/-- ProjectRepository.update: `ProjectNotFoundError` on an unknown id;
`if name and name != project.name` guards the uniqueness check and the
name assignment (so a `None` or empty-string name is skipped); a given
description is assigned unconditionally. No validation is run on either
field, and `Project.edit` is never called. -/
def update (s : Session) (project_id : Nat)
    (name description : Option String) : Except Err (Project × Session) :=
  match get_by_id s project_id with
  | none => .error .projectNotFoundError
  | some project =>
      let step1 : Except Err Project :=
        match name with
        | some n =>
            if n ≠ "" ∧ n ≠ project.name then
              match get_by_name s n with
              | some _ => .error .projectNameExistsError
              | none => .ok { project with name := n }
            else .ok project
        | none => .ok project
      match step1 with
      | .error e => .error e
      | .ok p1 =>
          let p2 :=
            match description with
            | some d => { p1 with description := d }
            | none => p1
          .ok (p2, s.setProject p2)

end ProjectRepository

namespace TaskRepository

/-- TaskRepository.get_by_id. -/
def get_by_id (s : Session) (task_id : Nat) : Option Task :=
  s.tasks.find? (fun t => t.id = task_id)

/-- TaskRepository.get_by_project_id. -/
def get_by_project_id (s : Session) (project_id : Nat) : List Task :=
  s.tasks.filter (fun t => t.project_id = project_id)

/-- TaskRepository.get_task_count_by_project. -/
def get_task_count_by_project (s : Session) (project_id : Nat) : Nat :=
  (s.tasks.filter (fun t => t.project_id = project_id)).length

/-- TaskRepository.create: project existence check, per-project task
limit check, then `Task(status=status or "todo", ...)` — a `None` or
empty (falsy) status argument is replaced by "todo" before the
constructor validates. -/
def create (s : Session) (today now : Nat) (project_id : Nat)
    (title description : String) (status : Option String)
    (deadline : Option DeadlineArg) : Except Err (Task × Session) :=
  match ProjectRepository.get_by_id s project_id with
  | none => .error .projectNotFoundError
  | some _ =>
      if get_task_count_by_project s project_id ≥ MAX_NUMBER_OF_TASK then
        .error .taskLimitExceededError
      else
        let effStatus :=
          match status with
          | none => "todo"
          | some st => if st = "" then "todo" else st
        match Task.init today s.next_task_id project_id title description
            effStatus deadline now with
        | .error e => .error e
        | .ok t =>
            .ok (t, { s with tasks := s.tasks ++ [t],
                             next_task_id := s.next_task_id + 1 })

/-- TaskRepository.update: `TaskNotFoundError` on an unknown id;
otherwise `task.edit(...)`. When `edit` raises, the session still holds
the (possibly partially) mutated ORM object, so the second component is
the session as later callers observe it. -/
def update (s : Session) (today now : Nat) (task_id : Nat)
    (title description status : Option String)
    (deadline : Option DeadlineArg) : Except Err Task × Session :=
  match get_by_id s task_id with
  | none => (.error .taskNotFoundError, s)
  | some task =>
      match task.edit today now title description status deadline with
      | .ok t2 => (.ok t2, s.setTask t2)
      | .error (e, cur) => (.error e, s.setTask cur)

/-- TaskRepository.change_status: `TaskNotFoundError` on an unknown id;
otherwise `task.change_status(new_status)` followed by a commit.
`change_status` validates before mutating, so a failure leaves the
session unchanged. -/
def change_status (s : Session) (now : Nat) (task_id : Nat)
    (new_status : String) : Except Err Task × Session :=
  match get_by_id s task_id with
  | none => (.error .taskNotFoundError, s)
  | some task =>
      match task.change_status now new_status with
      | .ok t2 => (.ok t2, s.setTask t2)
      | .error e => (.error e, s)

/-- TaskRepository.delete. -/
def delete (s : Session) (task_id : Nat) : Except Err Unit × Session :=
  match get_by_id s task_id with
  | none => (.error .taskNotFoundError, s)
  | some _ =>
      (.ok (), { s with tasks := s.tasks.filter (fun t => ¬ t.id = task_id) })

/-- The overdue filter of TaskRepository.get_overdue_tasks:
`deadline < today AND status != "done" AND closed_at IS NULL`
(a NULL deadline fails the SQL comparison). -/
def isOverdue (today : Nat) (t : Task) : Bool :=
  (match t.deadline with
   | some d => decide (d < today)
   | none => false)
  && t.status ≠ "done" && t.closed_at = none

/-- TaskRepository.get_overdue_tasks. -/
def get_overdue_tasks (s : Session) (today : Nat) : List Task :=
  s.tasks.filter (isOverdue today)

/-- The effect of one loop iteration of `close_overdue_tasks` on one
fetched task: `task.change_status("done")`, with the
`except Exception: continue` handler leaving the task as it was on
failure. -/
def closeAttempt (now : Nat) (t : Task) : Task :=
  match t.change_status now "done" with
  | .ok t2 => t2
  | .error _ => t

/-- TaskRepository.close_overdue_tasks: fetch the overdue tasks, call
`change_status("done")` on each (counting successes, skipping failures),
commit once. The loop mutates the fetched ORM objects in place; since
they are exactly the rows satisfying `isOverdue`, the committed table
maps `closeAttempt` over the overdue rows and keeps the rest. -/
def close_overdue_tasks (s : Session) (today now : Nat) : Nat × Session :=
  let overdue := get_overdue_tasks s today
  let closed_count := overdue.countP (fun t => (t.change_status now "done").toBool)
  let s2 := { s with tasks := s.tasks.map (fun t =>
    if isOverdue today t then closeAttempt now t else t) }
  (closed_count, s2)

end TaskRepository

namespace ProjectService

/-- ProjectService.create_project delegates to the repository. -/
def create_project (s : Session) (now : Nat) (name description : String) :
    Except Err (Project × Session) :=
  ProjectRepository.create s now name description

/-- ProjectService.get_project: `ProjectNotFoundError` when absent. -/
def get_project (s : Session) (project_id : Nat) : Except Err Project :=
  match ProjectRepository.get_by_id s project_id with
  | none => .error .projectNotFoundError
  | some p => .ok p

/-- ProjectService.update_project delegates to the repository. -/
def update_project (s : Session) (project_id : Nat)
    (name description : Option String) : Except Err (Project × Session) :=
  ProjectRepository.update s project_id name description

end ProjectService

namespace TaskService

/-- TaskService.create_task delegates to `TaskRepository.create` (which
resolves the project first). -/
def create_task (s : Session) (today now : Nat) (project_id : Nat)
    (title description : String) (status : Option String)
    (deadline : Option DeadlineArg) : Except Err (Task × Session) :=
  TaskRepository.create s today now project_id title description status deadline

/-- TaskService.list_tasks: verifies the project exists, then lists. -/
def list_tasks (s : Session) (project_id : Nat) : Except Err (List Task) :=
  match ProjectRepository.get_by_id s project_id with
  | none => .error .projectNotFoundError
  | some _ => .ok (TaskRepository.get_by_project_id s project_id)

/-- TaskService.get_task: project check first (`ProjectNotFoundError`),
then the task/ownership check (`TaskNotFoundError`). -/
def get_task (s : Session) (project_id task_id : Nat) : Except Err Task :=
  match ProjectRepository.get_by_id s project_id with
  | none => .error .projectNotFoundError
  | some _ =>
      match TaskRepository.get_by_id s task_id with
      | none => .error .taskNotFoundError
      | some task =>
          if task.project_id = project_id then .ok task
          else .error .taskNotFoundError

/-- TaskService.change_task_status: looks the TASK up first; a missing
task or a project mismatch raises `TaskNotFoundError` (the project store
is never consulted), then delegates. -/
def change_task_status (s : Session) (now : Nat) (project_id task_id : Nat)
    (new_status : String) : Except Err Task × Session :=
  match TaskRepository.get_by_id s task_id with
  | none => (.error .taskNotFoundError, s)
  | some task =>
      if task.project_id = project_id then
        TaskRepository.change_status s now task_id new_status
      else (.error .taskNotFoundError, s)

/-- TaskService.delete_task: same task-first lookup as change_task_status. -/
def delete_task (s : Session) (project_id task_id : Nat) :
    Except Err Unit × Session :=
  match TaskRepository.get_by_id s task_id with
  | none => (.error .taskNotFoundError, s)
  | some task =>
      if task.project_id = project_id then
        TaskRepository.delete s task_id
      else (.error .taskNotFoundError, s)

/-- TaskService.update_task: same task-first lookup, then delegates. -/
def update_task (s : Session) (today now : Nat) (project_id task_id : Nat)
    (title description status : Option String)
    (deadline : Option DeadlineArg) : Except Err Task × Session :=
  match TaskRepository.get_by_id s task_id with
  | none => (.error .taskNotFoundError, s)
  | some task =>
      if task.project_id = project_id then
        TaskRepository.update s today now task_id title description status deadline
      else (.error .taskNotFoundError, s)

end TaskService

/-- The combined effect of `ProjectRepository.update` on the fetched
project when no error is raised: a non-empty name differing from the
current one is assigned, a given description is assigned, and nothing is
validated. Stated separately so the update theorems can compare the
repository code against it. -/
def unvalidatedProjectEdit (p : Project) (name description : Option String) :
    Project :=
  let p1 :=
    match name with
    | some n => if n ≠ "" ∧ n ≠ p.name then { p with name := n } else p
    | none => p
  match description with
  | some d => { p1 with description := d }
  | none => p1

/-- A sequence of `create_project` calls, each applied to the session
left by the previous one (a failed call leaves the session unchanged). -/
def runCreates (now : Nat) : Session → List (String × String) → Session
  | s, [] => s
  | s, (n, d) :: rest =>
      match ProjectRepository.create s now n d with
      | .ok (_, s2) => runCreates now s2 rest
      | .error _ => runCreates now s rest

/-- The empty database. -/
def emptySession : Session :=
  { projects := [], tasks := [], next_project_id := 1, next_task_id := 1 }

/-- Concrete fixture: one project (id 1) holding one task (id 1) with
title "A" and description "B". -/
def sampleTask : Task :=
  { id := 1, project_id := 1, title := "A", description := "B",
    status := "todo", deadline := none, created_at := 0, closed_at := none }

/-- Concrete fixture session around `sampleTask`. -/
def sampleSession : Session :=
  { projects := [{ id := 1, name := "P", description := "", created_at := 0 }],
    tasks := [sampleTask],
    next_project_id := 2, next_task_id := 2 }

/-- Concrete fixture: two projects named "P" and "Q". -/
def twoProjectSession : Session :=
  { projects := [{ id := 1, name := "P", description := "", created_at := 0 },
                 { id := 2, name := "Q", description := "", created_at := 0 }],
    tasks := [], next_project_id := 3, next_task_id := 1 }

/-- Fifty create_project calls with fifty distinct one-character names
(the characters with codes 65..114, none of them whitespace). -/
def calls50 : List (String × String) :=
  (List.range 50).map (fun i => (String.mk [Char.ofNat (65 + i)], ""))

/-- The session reached from the empty database by the fifty successful
`create_project` calls of `calls50`: it holds exactly
`MAX_NUMBER_OF_PROJECT` projects, among them one named "A". -/
def bigSession : Session := runCreates 0 emptySession calls50

/-- Concrete fixture: an overdue task (deadline day 3, today will be day
10, status not done, closed_at unset). -/
def overdueTaskA : Task :=
  { id := 1, project_id := 1, title := "X", description := "",
    status := "todo", deadline := some 3, created_at := 0, closed_at := none }

/-- Concrete fixture: a second overdue task. -/
def overdueTaskB : Task :=
  { id := 2, project_id := 1, title := "Y", description := "",
    status := "doing", deadline := some 9, created_at := 0, closed_at := none }

/-- Concrete fixture: a task whose deadline (day 20) has not passed. -/
def futureTaskC : Task :=
  { id := 3, project_id := 1, title := "Z", description := "",
    status := "todo", deadline := some 20, created_at := 0, closed_at := none }

/-- Concrete fixture session with two overdue tasks and one future task. -/
def overdueSession : Session :=
  { projects := [{ id := 1, name := "P", description := "", created_at := 0 }],
    tasks := [overdueTaskA, overdueTaskB, futureTaskC],
    next_project_id := 2, next_task_id := 4 }

/-! Theorems checking the specification claims. -/

/-- C1: the claimed copy-validate-commit-or-rollback discipline does not
hold. Updating `sampleTask` (title "A", description "B") with an invalid
new title and a valid new description raises `ValidationError`, yet the
session afterwards holds a task whose title has been mutated to the
invalid whitespace string (the rollback handler catches only
`ValueError`, which `ValidationError` does not derive from). -/
theorem c1_edit_rollback_fails_eval :
    TaskRepository.update sampleSession 100 5 1 (some "   ") (some "C") none none =
      (.error .validationError,
       { sampleSession with tasks := [{ sampleTask with title := "   " }] }) := by
  decide

/-- C2: the closed_at/status coupling fails in both directions claimed.
Creating a task with status "done" succeeds with `closed_at = none`
(the constructor never sets it), and editing `sampleTask` with
status "done" plus a malformed deadline string rolls the status back to
"todo" while leaving `closed_at` set (the rollback restores title,
description, status and deadline but not closed_at). -/
theorem c2_closed_at_iff_fails_eval :
    (TaskRepository.create sampleSession 100 7 1 "T" "" (some "done") none =
      .ok ({ id := 2, project_id := 1, title := "T", description := "",
             status := "done", deadline := none, created_at := 7,
             closed_at := none },
           { sampleSession with
             tasks := [sampleTask,
                       { id := 2, project_id := 1, title := "T", description := "",
                         status := "done", deadline := none, created_at := 7,
                         closed_at := none }],
             next_task_id := 3 })) ∧
    TaskRepository.update sampleSession 100 9 1 none none (some "done")
        (some .malformed) =
      (.error .valueError,
       { sampleSession with tasks := [{ sampleTask with closed_at := some 9 }] }) := by
  decide

/-- C5: creating a task whose deadline (day 50) lies strictly before
today (day 100) fails with `InvalidDeadlineError` and persists nothing,
but updating an existing task with that deadline, while also failing
with `InvalidDeadlineError`, leaves the task's deadline mutated to the
past date: the rollback handler never catches the error. -/
theorem c5_deadline_mutation_eval :
    TaskRepository.create sampleSession 100 7 1 "T" "" none (some (.validStr 50)) =
      .error .invalidDeadlineError ∧
    TaskRepository.update sampleSession 100 5 1 none none none (some (.validStr 50)) =
      (.error .invalidDeadlineError,
       { sampleSession with tasks := [{ sampleTask with deadline := some 50 }] }) := by
  decide

/-- C3 counterexample: a project update providing a 31-character name —
longer than the 30-character limit the claim says is validated —
succeeds and commits the over-long name, so the update path performs no
validation. -/
theorem c3_update_unvalidated_cx :
    ProjectRepository.update sampleSession 1
        (some "abcdefghijklmnopqrstuvwxyzabcde") none =
      .ok ({ id := 1, name := "abcdefghijklmnopqrstuvwxyzabcde",
             description := "", created_at := 0 },
           { sampleSession with
             projects := [{ id := 1, name := "abcdefghijklmnopqrstuvwxyzabcde",
                            description := "", created_at := 0 }] }) ∧
    ("abcdefghijklmnopqrstuvwxyzabcde" : String).length = 31 := by
  decide

/-- C4 counterexample: `change_task_status` called with a project id (99)
that no project holds fails with `TaskNotFoundError`, not with the
`ProjectNotFoundError` the claim requires, because the service looks the
task up first and never consults the project store. -/
theorem c4_task_first_lookup_cx :
    (TaskService.change_task_status sampleSession 5 99 1 "done").1 =
      .error .taskNotFoundError ∧
    ¬ (TaskService.change_task_status sampleSession 5 99 1 "done").1 =
      .error .projectNotFoundError := by
  decide

/-- C6 counterexample: after the fifty successful creates of `calls50`
the store holds a project named "A", yet a further create with the
duplicate name "A" fails with `ProjectLimitExceededError`, not the
`ProjectNameExistsError` the claim requires: the capacity check runs
first. -/
theorem c6_dup_at_capacity_cx :
    (∃ p ∈ bigSession.projects, p.name = "A") ∧
    ProjectRepository.create bigSession 0 "A" "" =
      .error .projectLimitExceededError ∧
    ¬ ProjectRepository.create bigSession 0 "A" "" =
      .error .projectNameExistsError := by
  decide

/-- A missing project id means no stored project carries that id. -/
theorem project_get_by_id_none_iff (s : Session) (pid : Nat) :
    ProjectRepository.get_by_id s pid = none ↔ ∀ p ∈ s.projects, p.id ≠ pid := by
  simp [ProjectRepository.get_by_id, List.find?_eq_none]

/-- A task found by id is a stored task. -/
theorem task_get_by_id_mem {s : Session} {tid : Nat} {t : Task}
    (h : TaskRepository.get_by_id s tid = some t) : t ∈ s.tasks :=
  List.mem_of_find?_eq_some h

/-- A stored project with the requested name makes `get_by_name` succeed. -/
theorem get_by_name_isSome {s : Session} {name : String}
    (h : ∃ p ∈ s.projects, p.name = name) :
    ∃ q, ProjectRepository.get_by_name s name = some q := by
  rw [← Option.isSome_iff_exists]
  rw [ProjectRepository.get_by_name, List.find?_isSome]
  simpa using h

/-- C8: the capacity check of `ProjectRepository.create` runs before the
name-uniqueness check, so at the project limit a duplicate-name create
fails with `ProjectLimitExceededError`, not `ProjectNameExistsError`. -/
theorem c8_limit_checked_before_name (s : Session) (now : Nat)
    (name description : String)
    (hcount : MAX_NUMBER_OF_PROJECT ≤ ProjectRepository.get_project_count s)
    (hdup : ∃ p ∈ s.projects, p.name = name) :
    ProjectRepository.create s now name description =
      .error .projectLimitExceededError := by
  unfold ProjectRepository.create
  rw [if_pos hcount]

/-- C8 witness: at the concrete 50-project store `bigSession` the
duplicate-name create fails with the limit error. -/
theorem c8_limit_checked_before_name_witness :
    ProjectRepository.create bigSession 0 "A" "" =
      .error .projectLimitExceededError :=
  c8_limit_checked_before_name bigSession 0 "A" "" (by decide) (by decide)

/-- C10: a project update whose name argument is the empty string is
treated as "name not provided": the update succeeds (whatever the
description argument) and the stored name is unchanged, because
`if name and name != project.name` is false for the falsy empty
string. -/
theorem c10_empty_name_ignored (s : Session) (pid : Nat) (p : Project)
    (description : Option String)
    (hp : ProjectRepository.get_by_id s pid = some p) :
    ∃ q s2, ProjectRepository.update s pid (some "") description =
      .ok (q, s2) ∧ q.name = p.name := by
  unfold ProjectRepository.update
  rw [hp]
  cases description with
  | none => exact ⟨p, s.setProject p, by simp, rfl⟩
  | some d =>
      exact ⟨{ p with description := d },
             s.setProject { p with description := d }, by simp, rfl⟩

/-- C10 witness: updating the fixture project with an empty name and a
new description succeeds and keeps the name "P". -/
theorem c10_empty_name_ignored_witness :
    ∃ q s2, ProjectRepository.update sampleSession 1 (some "") (some "d2") =
      .ok (q, s2) ∧ q.name = ({ id := 1, name := "P", description := "",
                                created_at := 0 } : Project).name :=
  c10_empty_name_ignored sampleSession 1
    { id := 1, name := "P", description := "", created_at := 0 }
    (some "d2") (by decide)

/-- C9: a task create whose status argument is the empty string succeeds
(when the project exists, the task limit is not reached and the other
fields are valid) and stores status "todo": `status or "todo"`
substitutes the default for the falsy empty string before the
constructor would otherwise have rejected "" as an invalid status. -/
theorem c9_empty_status_defaults_todo (s : Session) (today now pid : Nat)
    (title description : String) (deadline : Option DeadlineArg) (d : Option Nat)
    (hp : (ProjectRepository.get_by_id s pid).isSome = true)
    (hcount : TaskRepository.get_task_count_by_project s pid < MAX_NUMBER_OF_TASK)
    (ht : validate_title title = .ok ())
    (hd : validate_description description = .ok ())
    (hdl : parse_deadline_init today deadline = .ok d) :
    TaskRepository.create s today now pid title description (some "") deadline =
      .ok ({ id := s.next_task_id, project_id := pid, title := title,
             description := description, status := "todo", deadline := d,
             created_at := now, closed_at := none },
           { s with
             tasks := s.tasks ++
               [{ id := s.next_task_id, project_id := pid, title := title,
                  description := description, status := "todo", deadline := d,
                  created_at := now, closed_at := none }],
             next_task_id := s.next_task_id + 1 }) := by
  obtain ⟨p, hp2⟩ := Option.isSome_iff_exists.1 hp
  unfold TaskRepository.create
  rw [hp2, if_neg (Nat.not_le.2 hcount)]
  simp only [reduceIte]
  unfold Task.init
  rw [ht, hd, hdl]
  rfl

/-- C9 witness: creating a task in the fixture session with status ""
yields a task whose stored status is "todo". -/
theorem c9_empty_status_defaults_todo_witness :
    TaskRepository.create sampleSession 100 7 1 "T" "" (some "") none =
      .ok ({ id := 2, project_id := 1, title := "T", description := "",
             status := "todo", deadline := none, created_at := 7,
             closed_at := none },
           { sampleSession with
             tasks := sampleSession.tasks ++
               [{ id := 2, project_id := 1, title := "T", description := "",
                  status := "todo", deadline := none, created_at := 7,
                  closed_at := none }],
             next_task_id := 3 }) :=
  c9_empty_status_defaults_todo sampleSession 100 7 1 "T" "" none none
    (by decide) (by decide) (by decide) (by decide) (by decide)

/-- C3 (amended): project update fails with `ProjectNotFoundError` on an
unknown id; with a non-empty name differing from the current one that
another project already holds it fails with `ProjectNameExistsError`;
otherwise the provided changes (the name when non-empty and differing,
the description whenever given) are committed atomically WITHOUT any
length or emptiness validation, exactly as `unvalidatedProjectEdit`
describes. -/
theorem c3_update_behaviour (s : Session) (pid : Nat)
    (name description : Option String) :
    (ProjectRepository.get_by_id s pid = none →
      ProjectRepository.update s pid name description =
        .error .projectNotFoundError) ∧
    (∀ p, ProjectRepository.get_by_id s pid = some p →
      ((∃ n, name = some n ∧ n ≠ "" ∧ n ≠ p.name ∧
          (∃ q ∈ s.projects, q.name = n)) →
        ProjectRepository.update s pid name description =
          .error .projectNameExistsError) ∧
      ((∀ n, name = some n → n ≠ "" → n ≠ p.name →
          ProjectRepository.get_by_name s n = none) →
        ProjectRepository.update s pid name description =
          .ok (unvalidatedProjectEdit p name description,
               s.setProject (unvalidatedProjectEdit p name description)))) := by
  refine ⟨?_, ?_⟩
  · intro h
    unfold ProjectRepository.update
    rw [h]
  · intro p hp
    refine ⟨?_, ?_⟩
    · rintro ⟨n, rfl, hne, hdiff, hex⟩
      obtain ⟨q, hq⟩ := get_by_name_isSome hex
      simp [ProjectRepository.update, hp, hne, hdiff, hq]
    · intro hfresh
      cases name with
      | none =>
          simp [ProjectRepository.update, unvalidatedProjectEdit, hp]
      | some n =>
          by_cases h1 : n = ""
          · subst h1
            simp [ProjectRepository.update, unvalidatedProjectEdit, hp]
          · by_cases h2 : n = p.name
            · simp [ProjectRepository.update, unvalidatedProjectEdit, hp, h1, h2]
            · have hn := hfresh n rfl h1 h2
              simp [ProjectRepository.update, unvalidatedProjectEdit, hp, h1, h2, hn]

/-- C3 amended witness: in the two-project fixture, renaming project 1
to the name "Q" held by project 2 fails with `ProjectNameExistsError`. -/
theorem c3_update_behaviour_witness :
    ProjectRepository.update twoProjectSession 1 (some "Q") none =
      .error .projectNameExistsError :=
  ((c3_update_behaviour twoProjectSession 1 (some "Q") none).2
    { id := 1, name := "P", description := "", created_at := 0 }
    (by decide)).1
    ⟨"Q", rfl, by decide, by decide,
     ⟨{ id := 2, name := "Q", description := "", created_at := 0 },
      by decide, rfl⟩⟩

/-- C4 (amended): with a project id no stored project carries (and the
foreign-key integrity every session reached by the repositories keeps),
`get_task`, `list_tasks` and `create_task` fail with
`ProjectNotFoundError` before touching the task store, but
`change_task_status`, `delete_task` and `update_task` look the task up
first and fail with `TaskNotFoundError` instead, leaving the session
unchanged. -/
theorem c4_project_missing_behaviour (s : Session) (today now pid tid : Nat)
    (ctitle cdesc : String) (cstatus : Option String)
    (title description status : Option String)
    (deadline : Option DeadlineArg) (new_status : String)
    (hpid : ProjectRepository.get_by_id s pid = none)
    (hfk : ∀ t ∈ s.tasks, ∃ p ∈ s.projects, t.project_id = p.id) :
    TaskService.get_task s pid tid = .error .projectNotFoundError ∧
    TaskService.list_tasks s pid = .error .projectNotFoundError ∧
    TaskService.create_task s today now pid ctitle cdesc cstatus deadline =
      .error .projectNotFoundError ∧
    TaskService.change_task_status s now pid tid new_status =
      (.error .taskNotFoundError, s) ∧
    TaskService.delete_task s pid tid = (.error .taskNotFoundError, s) ∧
    TaskService.update_task s today now pid tid title description status deadline =
      (.error .taskNotFoundError, s) := by
  have hmismatch : ∀ t ∈ s.tasks, t.project_id ≠ pid := by
    intro t ht
    obtain ⟨p, hpmem, hpe⟩ := hfk t ht
    have := (project_get_by_id_none_iff s pid).1 hpid p hpmem
    omega
  refine ⟨?_, ?_, ?_, ?_, ?_, ?_⟩
  · simp [TaskService.get_task, hpid]
  · simp [TaskService.list_tasks, hpid]
  · simp [TaskService.create_task, TaskRepository.create, hpid]
  · unfold TaskService.change_task_status
    cases h : TaskRepository.get_by_id s tid with
    | none => rfl
    | some task => simp [hmismatch task (task_get_by_id_mem h)]
  · unfold TaskService.delete_task
    cases h : TaskRepository.get_by_id s tid with
    | none => rfl
    | some task => simp [hmismatch task (task_get_by_id_mem h)]
  · unfold TaskService.update_task
    cases h : TaskRepository.get_by_id s tid with
    | none => rfl
    | some task => simp [hmismatch task (task_get_by_id_mem h)]

/-- C4 amended witness: in the fixture session (one project, id 1) the
six operations called with the unknown project id 99 split exactly as
the amended claim says. -/
theorem c4_project_missing_behaviour_witness :
    TaskService.get_task sampleSession 99 1 = .error .projectNotFoundError ∧
    TaskService.list_tasks sampleSession 99 = .error .projectNotFoundError ∧
    TaskService.create_task sampleSession 100 7 99 "T" "" none none =
      .error .projectNotFoundError ∧
    TaskService.change_task_status sampleSession 5 99 1 "done" =
      (.error .taskNotFoundError, sampleSession) ∧
    TaskService.delete_task sampleSession 99 1 =
      (.error .taskNotFoundError, sampleSession) ∧
    TaskService.update_task sampleSession 100 5 99 1 none none none none =
      (.error .taskNotFoundError, sampleSession) :=
  c4_project_missing_behaviour sampleSession 100 5 99 1 "T" "" none
    none none none none "done" (by decide) (by decide)

/-- The project constructor keeps the name it was given. -/
theorem project_init_name {id : Nat} {n d : String} {now : Nat} {p : Project}
    (h : Project.init id n d now = .ok p) : p.name = n := by
  unfold Project.init at h
  cases h1 : validate_title n <;> rw [h1] at h <;>
    cases h2 : validate_description d <;> rw [h2] at h <;>
      simp [Bind.bind, Except.bind] at h
  rw [← h]

/-- Shape of a successful `ProjectRepository.create`: the new project is
appended, it carries the requested name, and no pre-existing project had
that name. -/
theorem create_ok_shape {s : Session} {now : Nat} {n d : String}
    {p : Project} {s2 : Session}
    (h : ProjectRepository.create s now n d = .ok (p, s2)) :
    s2.projects = s.projects ++ [p] ∧ p.name = n ∧
      ∀ q ∈ s.projects, q.name ≠ n := by
  unfold ProjectRepository.create at h
  split at h
  · exact absurd h (by simp)
  · rename_i hfull
    cases hname : ProjectRepository.get_by_name s n <;> rw [hname] at h
    · cases hinit : Project.init s.next_project_id n d now <;> rw [hinit] at h
      · exact absurd h (by simp)
      · simp only [Except.ok.injEq, Prod.mk.injEq] at h
        obtain ⟨hp, hs⟩ := h
        refine ⟨by rw [← hs, hp], by rw [← hp]; exact project_init_name hinit, ?_⟩
        intro q hq
        have := (List.find?_eq_none.1 hname) q hq
        simpa using this
    · exact absurd h (by simp)

/-- A successful create preserves distinctness of the stored names. -/
theorem create_preserves_nodup {s : Session} {now : Nat} {n d : String}
    {p : Project} {s2 : Session}
    (h : ProjectRepository.create s now n d = .ok (p, s2))
    (hnd : (s.projects.map Project.name).Nodup) :
    (s2.projects.map Project.name).Nodup := by
  obtain ⟨hp, hname, hfresh⟩ := create_ok_shape h
  rw [hp, List.map_append, List.nodup_append]
  refine ⟨hnd, by simp, ?_⟩
  intro x hx
  simp only [List.map_cons, List.map_nil, List.mem_singleton]
  intro hxp
  obtain ⟨q, hq, hqx⟩ := List.mem_map.1 hx
  exact hfresh q hq (by rw [hqx, hxp, hname])

/-- Any create sequence starting from distinct names keeps them distinct. -/
theorem runCreates_nodup (now : Nat) (calls : List (String × String))
    (s : Session) (hnd : (s.projects.map Project.name).Nodup) :
    ((runCreates now s calls).projects.map Project.name).Nodup := by
  induction calls generalizing s with
  | nil => exact hnd
  | cons c rest ih =>
      obtain ⟨n, d⟩ := c
      unfold runCreates
      cases h : ProjectRepository.create s now n d with
      | ok pr =>
          obtain ⟨p, s2⟩ := pr
          exact ih s2 (create_preserves_nodup h hnd)
      | error e => exact ih s hnd

/-- C6 (amended): along every sequence of create_project calls from the
empty store, no two successfully created projects share a name; and a
create whose name an existing project already holds, issued while the
store is below the project limit, fails with `ProjectNameExistsError`
(persisting nothing — an erroring create returns no new session). At
the limit such a call fails with `ProjectLimitExceededError` instead
(see the counterexample). -/
theorem c6_name_uniqueness (now : Nat) (calls : List (String × String))
    (s : Session) (name description : String)
    (hs : s = runCreates now emptySession calls)
    (hdup : ∃ p ∈ s.projects, p.name = name)
    (hlim : s.projects.length < MAX_NUMBER_OF_PROJECT) :
    ((runCreates now emptySession calls).projects.map Project.name).Nodup ∧
    ProjectRepository.create s now name description =
      .error .projectNameExistsError := by
  refine ⟨runCreates_nodup now calls emptySession (by simp [emptySession]), ?_⟩
  obtain ⟨q, hq⟩ := get_by_name_isSome hdup
  unfold ProjectRepository.create
  rw [if_neg (by simpa [ProjectRepository.get_project_count] using Nat.not_le.2 hlim),
      hq]

/-- C6 amended witness: after creating projects "A" and "B" from the
empty store, a second create named "A" fails with
`ProjectNameExistsError`. -/
theorem c6_name_uniqueness_witness :
    ((runCreates 0 emptySession [("A", ""), ("B", "")]).projects.map
        Project.name).Nodup ∧
    ProjectRepository.create (runCreates 0 emptySession [("A", ""), ("B", "")])
        0 "A" "x" = .error .projectNameExistsError :=
  c6_name_uniqueness 0 [("A", ""), ("B", "")]
    (runCreates 0 emptySession [("A", ""), ("B", "")]) "A" "x" rfl
    (by decide) (by decide)

/-- "done" is a valid status, so `change_status(_, "done")` never raises. -/
theorem change_status_done_toBool (t : Task) (now : Nat) :
    (t.change_status now "done").toBool = true := by
  unfold Task.change_status
  simp [VALID_STATUSES]
  split <;> rfl

/-- An overdue task has no closure timestamp yet, so closing it sets the
status to "done" and stamps `closed_at = now`. -/
theorem closeAttempt_overdue {today : Nat} {t : Task} (now : Nat)
    (h : TaskRepository.isOverdue today t = true) :
    TaskRepository.closeAttempt now t =
      { t with status := "done", closed_at := some now } := by
  have hc : t.closed_at = none := by
    simp only [TaskRepository.isOverdue, Bool.and_eq_true,
      decide_eq_true_eq] at h
    exact h.2
  unfold TaskRepository.closeAttempt Task.change_status
  simp [VALID_STATUSES, hc]

/-- A closed task is no longer overdue. -/
theorem isOverdue_closeAttempt {today : Nat} {t : Task} (now : Nat)
    (h : TaskRepository.isOverdue today t = true) :
    TaskRepository.isOverdue today (TaskRepository.closeAttempt now t) = false := by
  rw [closeAttempt_overdue now h]
  simp [TaskRepository.isOverdue]

/-- Mapping a function that fixes every element is the identity. -/
theorem list_map_id_of_eq {α : Type} (l : List α) (f : α → α)
    (h : ∀ a ∈ l, f a = a) : l.map f = l := by
  induction l with
  | nil => rfl
  | cons x xs ih =>
      rw [List.map_cons, h x (by simp), ih (fun a ha => h a (by simp [ha]))]

/-- A reconciliation pass over a store with no overdue task closes 0
tasks and leaves every task unchanged. -/
theorem close_overdue_no_overdue {s2 : Session} {today : Nat}
    (h : ∀ t ∈ s2.tasks, TaskRepository.isOverdue today t = false)
    (now2 : Nat) :
    TaskRepository.close_overdue_tasks s2 today now2 = (0, s2) := by
  have hfilter : TaskRepository.get_overdue_tasks s2 today = [] := by
    rw [TaskRepository.get_overdue_tasks, List.filter_eq_nil_iff]
    intro a ha
    simp [h a ha]
  simp only [TaskRepository.close_overdue_tasks]
  rw [hfilter]
  rw [list_map_id_of_eq s2.tasks _ (fun a ha => by rw [h a ha]; rfl)]
  rfl

/-- C7: one reconciliation pass returns exactly the number of overdue
tasks; each overdue task ends up stored with status "done" and
`closed_at = now`; and an immediately following pass (any later `now`)
returns 0 and changes no task. -/
theorem c7_close_overdue_idempotent (s : Session) (today now now2 : Nat) :
    (TaskRepository.close_overdue_tasks s today now).1 =
      (TaskRepository.get_overdue_tasks s today).length ∧
    (∀ t ∈ s.tasks, TaskRepository.isOverdue today t = true →
      TaskRepository.closeAttempt now t ∈
        (TaskRepository.close_overdue_tasks s today now).2.tasks ∧
      (TaskRepository.closeAttempt now t).status = "done" ∧
      (TaskRepository.closeAttempt now t).closed_at = some now) ∧
    TaskRepository.close_overdue_tasks
        (TaskRepository.close_overdue_tasks s today now).2 today now2 =
      (0, (TaskRepository.close_overdue_tasks s today now).2) := by
  refine ⟨?_, ?_, ?_⟩
  · show (TaskRepository.get_overdue_tasks s today).countP _ = _
    exact List.countP_eq_length.2 (fun t _ => change_status_done_toBool t now)
  · intro t ht hov
    refine ⟨?_, ?_, ?_⟩
    · show _ ∈ s.tasks.map _
      have := List.mem_map_of_mem
        (fun u => if TaskRepository.isOverdue today u then
          TaskRepository.closeAttempt now u else u) ht
      simpa [hov] using this
    · rw [closeAttempt_overdue now hov]
    · rw [closeAttempt_overdue now hov]
  · apply close_overdue_no_overdue
    intro t ht
    obtain ⟨u, hu, rfl⟩ := List.mem_map.1 ht
    by_cases h : TaskRepository.isOverdue today u = true
    · rw [if_pos h]
      exact isOverdue_closeAttempt now h
    · rw [if_neg h]
      simpa using h

/-- C7 witness: in the concrete fixture `overdueSession` (two overdue
tasks at day 10) the closed task derived from `overdueTaskA` is stored
done with `closed_at = 11`. -/
theorem c7_close_overdue_idempotent_witness :
    TaskRepository.closeAttempt 11 overdueTaskA ∈
      (TaskRepository.close_overdue_tasks overdueSession 10 11).2.tasks ∧
    (TaskRepository.closeAttempt 11 overdueTaskA).status = "done" ∧
    (TaskRepository.closeAttempt 11 overdueTaskA).closed_at = some 11 :=
  (c7_close_overdue_idempotent overdueSession 10 11 12).2.1 overdueTaskA
    (by decide) (by decide)

end ToDoList
